import Mathlib

/-!
# SignLanguageDetector (static/js/app.js)

A shallow embedding of the browser-side controller in `static/js/app.js`.

* Every method of the class is a function on an explicit `State` record holding
  the fields of the detector object, the DOM properties the script writes, and
  the part of the browser environment the script acts on (interval timers,
  media tracks, outstanding requests, scheduled timeouts).
* An `async` method is split at its first `await`: `foo` is the synchronous
  part that issues the request, `fooResume` is the continuation that runs when
  the awaited promise settles.
* `Date.now()` readings, promise outcomes and media properties are inputs.
* JavaScript numbers are represented by the exact rational value of the finite
  double; comparison of doubles is exact, so `>=` is the order of `ℚ`.
-/

namespace SignLanguageDetector

/-! ## JavaScript values -/

/-- A JavaScript value as it can reach a detector field from a decoded JSON
property. `object` stands for any array or object: it is truthy and, coming
from JSON, carries no callable property. -/
inductive JSVal where
  | undefined
  | null
  | bool (b : Bool)
  | num (q : ℚ)
  | str (s : String)
  | object
  deriving DecidableEq

/-- Exceptions raised by the operations modelled here. -/
inductive JSError where
  | typeError
  | rejected
  deriving DecidableEq

/-- ToBoolean: the truthiness test used by `if (x)`, `!x` and `x || y`. -/
def JSVal.truthy : JSVal → Bool
  | .undefined => false
  | .null => false
  | .bool b => b
  | .num q => q != 0
  | .str s => s != ""
  | .object => true

/-- White space and line terminators stripped by `String.prototype.trim`. -/
def isJsWhiteSpace (c : Char) : Bool :=
  let n := c.toNat
  n == 0x9 || n == 0xA || n == 0xB || n == 0xC || n == 0xD || n == 0x20 ||
  n == 0xA0 || n == 0x1680 || (0x2000 ≤ n && n ≤ 0x200A) || n == 0x2028 ||
  n == 0x2029 || n == 0x202F || n == 0x205F || n == 0x3000 || n == 0xFEFF

/-- The function `String.prototype.trim`: white space removed from both ends. -/
def jsTrim (s : String) : String :=
  String.mk ((s.data.dropWhile isJsWhiteSpace).reverse.dropWhile isJsWhiteSpace).reverse

/-- The method call `v.trim()`: only a string has a callable `trim`; on
`undefined` and `null` the property read throws, on the other values the call of
a non-function throws. -/
def JSVal.trim : JSVal → Except JSError String
  | .str s => .ok (jsTrim s)
  | _ => .error .typeError

/-- The array method `xs.slice(start)` with the end omitted: a negative start
counts from the end, and the start is clamped to the array. -/
def jsSlice (start : Int) (xs : List α) : List α :=
  let len : Int := xs.length
  let k : Int := if start < 0 then max (len + start) 0 else min start len
  xs.drop k.toNat

/-! ## Numeric literals of the source, as the exact value of their double -/

/-- The literal `0.7` (`confidenceThreshold`). -/
def double_0_7 : ℚ := 3152519739159347 / 4503599627370496

/-- The literal `0.8` (`updateConfidenceColor`). -/
def double_0_8 : ℚ := 3602879701896397 / 4503599627370496

/-- The literal `0.6` (`updateConfidenceColor`). -/
def double_0_6 : ℚ := 5404319552844595 / 9007199254740992

/-! ## Data model -/

/-- An element of `recentLetters`: the object pushed by `processLetter`. -/
structure LetterEntry where
  letter : String
  timestamp : Int
  deriving DecidableEq

/-- A camera stream: `tracks` is what `getTracks()` returns. -/
structure MediaStream where
  tracks : List Nat
  deriving DecidableEq

/-- Handle returned by `setInterval`. The HTML timer rules give every handle an
integer greater than zero, so a handle is never falsy; `id` numbers the handles
in creation order. -/
structure TimerHandle where
  id : Nat
  deriving DecidableEq

/-- Opening tag of a letter item in the template literal of
`updateLettersList`. -/
def letterItemOpen : String := "<span class=\"letter-item\">"

/-- Closing tag of a letter item in that template literal. -/
def letterItemClose : String := "</span>"

/-- The template literal of `updateLettersList` for one entry: the letter is
interpolated as it is, without escaping. -/
def letterItemHtml (letter : String) : String :=
  letterItemOpen ++ letter ++ letterItemClose

/-- The placeholder assigned to `lettersList.innerHTML` when there is no
letter. -/
def noLettersHtml : String := "<p class=\"no-letters\">No letters detected yet</p>"

/-- The array method `parts.join('')`. -/
def jsJoin : List String → String
  | [] => ""
  | part :: parts => part ++ jsJoin parts

/-- Whether the text begins with the pattern. -/
def startsWithChars : List Char → List Char → Bool
  | [], _ => true
  | _ :: _, [] => false
  | p :: ps, c :: cs => p == c && startsWithChars ps cs

/-- Number of positions of the text at which the pattern begins. -/
def countOpenTags (pattern : List Char) : List Char → Nat
  | [] => 0
  | c :: cs => (if startsWithChars pattern (c :: cs) then 1 else 0) + countOpenTags pattern cs

/-- Number of letter items written in an HTML string: the number of
`letter-item` span opening tags it holds. -/
def countLetterItems (html : String) : Nat :=
  countOpenTags letterItemOpen.data html.data

/-- Detector object, the DOM it writes, and the environment it acts on. -/
structure State where
  -- fields of the detector object
  isDetecting : Bool
  detectionInterval : Option TimerHandle
  recentLetters : List LetterEntry
  currentSentence : JSVal
  confidenceThreshold : ℚ
  letterHistory : List String
  maxHistoryLength : Nat
  -- video and canvas elements
  srcObject : Option MediaStream
  metadataListeners : Nat
  videoWidth : Nat
  videoHeight : Nat
  canvasWidth : Nat
  canvasHeight : Nat
  -- controls
  startDisabled : Bool
  stopDisabled : Bool
  speakDisabled : Bool
  copyDisabled : Bool
  -- display elements
  statusDotClass : String
  statusText : String
  currentLetterText : String
  predictedLetterText : String
  confidenceShown : Option ℚ -- the confidence rendered as `Math.round(c * 100)%`
  confidenceColor : String
  sentenceText : JSVal
  lettersList : String -- the string assigned to `innerHTML`
  detectionBoxActive : Bool
  loadingShown : Bool
  toastIcon : String
  toastMessage : String
  toastType : String
  toastShown : Bool
  -- environment
  hidden : Bool
  endedTracks : List Nat
  liveTimers : List TimerHandle
  nextTimer : Nat
  pendingCamera : Nat
  predictRequests : Nat
  pendingPredict : Nat
  probePending : Bool
  sentenceRequests : List (List String)
  pendingSentence : Nat
  loadingTimeouts : Nat
  toastHides : Nat
  spoken : List JSVal
  clipboard : List JSVal

/-- Text shown when there is no sentence. -/
def sentencePlaceholder : String := "Start signing to see your message appear here..."

/-! ## Methods, in source order -/

/-- The method `showToast(message, type)`: the icon class is set for the three
known types, the message and the class are replaced, and one auto-hide callback
is scheduled. -/
def showToast (s : State) (message type : String) : State :=
  let icon :=
    if type = "success" then "toast-icon fas fa-check-circle"
    else if type = "error" then "toast-icon fas fa-exclamation-circle"
    else if type = "warning" then "toast-icon fas fa-exclamation-triangle"
    else s.toastIcon
  { s with toastIcon := icon, toastMessage := message, toastType := type,
           toastShown := true, toastHides := s.toastHides + 1 }

/-- The method `updateStatus(type, text)`. -/
def updateStatus (s : State) (type text : String) : State :=
  { s with statusDotClass := "status-dot " ++ type, statusText := text }

/-- The method `updateUI(isDetecting)`. -/
def updateUI (s : State) (isDetecting : Bool) : State :=
  { s with startDisabled := isDetecting, stopDisabled := !isDetecting }

/-- Synchronous part of `showLoading`: the overlay is shown and the probe
request to `/predict` is issued. -/
def showLoading (s : State) : State :=
  { s with loadingShown := true, predictRequests := s.predictRequests + 1,
           probePending := true }

/-- Continuation of `showLoading` when the probe settles: a response of any
content schedules the 2000 ms callback; a rejection takes the `catch` branch. -/
def showLoadingResume (s : State) (fulfilled : Bool) : State :=
  let s := { s with probePending := false }
  if fulfilled then
    { s with loadingTimeouts := s.loadingTimeouts + 1 }
  else
    let s := { s with loadingShown := false }
    let s := updateStatus s "error" "Model Error"
    showToast s "Error loading model. Please refresh the page." "error"

/-- The callback scheduled by `showLoading` with `setTimeout(..., 2000)`. -/
def loadingTimeout (s : State) : State :=
  let s := { s with loadingShown := false, loadingTimeouts := s.loadingTimeouts - 1 }
  updateStatus s "ready" "Ready"

/-- The callback scheduled by `showToast` with `setTimeout(..., 3000)`. -/
def toastHide (s : State) : State :=
  { s with toastShown := false, toastHides := s.toastHides - 1 }

/-- Synchronous part of `startDetection`: the call of `getUserMedia`. -/
def startDetection (s : State) : State :=
  { s with pendingCamera := s.pendingCamera + 1 }

/-- Continuation of `startDetection` when `getUserMedia` settles: with a stream
it is attached to the video and one more `loadedmetadata` listener is added
(each call adds a fresh arrow function, none is ever removed); without one the
`catch` branch runs. -/
def startDetectionResume (s : State) (camera : Option MediaStream) : State :=
  let s := { s with pendingCamera := s.pendingCamera - 1 }
  match camera with
  | some stream =>
    { s with srcObject := some stream, metadataListeners := s.metadataListeners + 1 }
  | none =>
    let s := showToast s "Camera access denied. Please allow camera access." "error"
    updateStatus s "error" "Camera Error"

/-- The browser function `clearInterval(h)` on the set of live timers. -/
def clearInterval (live : List TimerHandle) (h : TimerHandle) : List TimerHandle :=
  live.filter (fun t => t != h)

/-- The method `stopDetection()`. -/
def stopDetection (s : State) : State :=
  let s :=
    match s.srcObject with
    | some stream => { s with endedTracks := s.endedTracks ++ stream.tracks, srcObject := none }
    | none => s
  let s :=
    match s.detectionInterval with
    | some h => { s with liveTimers := clearInterval s.liveTimers h, detectionInterval := none }
    | none => s
  let s := { s with isDetecting := false }
  let s := updateUI s false
  let s := updateStatus s "ready" "Ready"
  let s := { s with detectionBoxActive := false }
  showToast s "Detection stopped" "success"

/-- The method `pauseDetection()`. -/
def pauseDetection (s : State) : State :=
  let s :=
    match s.detectionInterval with
    | some h => { s with liveTimers := clearInterval s.liveTimers h, detectionInterval := none }
    | none => s
  updateStatus s "ready" "Paused"

/-- The method `setupCanvas()`. -/
def setupCanvas (s : State) : State :=
  { s with canvasWidth := s.videoWidth, canvasHeight := s.videoHeight }

/-- The method `startPredictionLoop()`: `setInterval` creates a new live timer
and its handle overwrites `detectionInterval`. -/
def startPredictionLoop (s : State) : State :=
  let h : TimerHandle := ⟨s.nextTimer⟩
  { s with isDetecting := true, detectionBoxActive := true,
           liveTimers := s.liveTimers ++ [h], nextTimer := s.nextTimer + 1,
           detectionInterval := some h }

/-- The method `resumeDetection()`. -/
def resumeDetection (s : State) : State :=
  if s.isDetecting then
    let s := startPredictionLoop s
    updateStatus s "recording" "Detecting"
  else s

/-- The `loadedmetadata` listener added by `startDetection`. -/
def onLoadedMetadata (s : State) : State :=
  let s := setupCanvas s
  let s := startPredictionLoop s
  let s := updateUI s true
  let s := updateStatus s "recording" "Detecting"
  showToast s "Camera started successfully!" "success"

/-- The `visibilitychange` listener of `setupEventListeners`, run after
`document.hidden` has taken its new value. -/
def onVisibilityChange (s : State) (hiddenNow : Bool) : State :=
  let s := { s with hidden := hiddenNow }
  if s.hidden && s.isDetecting then pauseDetection s
  else if !s.hidden && s.isDetecting then resumeDetection s
  else s

/-- Synchronous part of `captureAndPredict`: the frame is drawn and encoded and
the request to `/predict` is issued. -/
def captureAndPredict (s : State) : State :=
  { s with predictRequests := s.predictRequests + 1, pendingPredict := s.pendingPredict + 1 }

/-- The interval callback of `startPredictionLoop`; `enoughData` is the test
`video.readyState === video.HAVE_ENOUGH_DATA`. -/
def onTick (s : State) (enoughData : Bool) : State :=
  if enoughData then captureAndPredict s else s

/-- The method `updateConfidenceColor(confidence)`. -/
def updateConfidenceColor (s : State) (confidence : ℚ) : State :=
  if double_0_8 ≤ confidence then { s with confidenceColor := "#48bb78" }
  else if double_0_6 ≤ confidence then { s with confidenceColor := "#ed8936" }
  else { s with confidenceColor := "#f56565" }

/-- The method `updateLettersList()`: the placeholder for an empty window,
otherwise the joined template literals of `slice(-10)`, assigned to
`innerHTML`. -/
def updateLettersList (s : State) : State :=
  if s.recentLetters.length = 0 then
    { s with lettersList := noLettersHtml }
  else
    let lettersHtml :=
      jsJoin ((jsSlice (-10) s.recentLetters).map (fun item => letterItemHtml item.letter))
    { s with lettersList := lettersHtml }

/-- Synchronous part of `processSentence`: the letters of the window are sent
to `/process_sentence`. -/
def processSentence (s : State) : State :=
  let letters := s.recentLetters.map (fun item => item.letter)
  { s with sentenceRequests := s.sentenceRequests ++ [letters],
           pendingSentence := s.pendingSentence + 1 }

/-- The method `processLetter(letter)`; `t1` and `t2` are the two readings of
`Date.now()`, in program order. -/
def processLetter (s : State) (letter : String) (t1 t2 : Int) : State :=
  let s := { s with recentLetters := s.recentLetters ++ [LetterEntry.mk letter t1] }
  let tenSecondsAgo := t2 - 10000
  let s := { s with recentLetters := s.recentLetters.filter (fun item => item.timestamp > tenSecondsAgo) }
  let s := updateLettersList s
  processSentence s

/-- The method `handlePrediction(letter, confidence)` for a string letter and a
finite numeric confidence; `t1` and `t2` are the clock readings that
`processLetter` takes if it runs. -/
def handlePrediction (s : State) (letter : String) (confidence : ℚ) (t1 t2 : Int) : State :=
  let s := { s with currentLetterText := letter, confidenceShown := some confidence,
                    predictedLetterText := letter }
  let s :=
    if s.confidenceThreshold ≤ confidence && letter != "nothing" then
      processLetter s letter t1 t2
    else s
  updateConfidenceColor s confidence

/-- The value produced by `await response.json()`. `scalarOrArray` is a decoded
boolean, number, string or array, on which the properties `success` and
`sentence` read as `undefined`; `object` lists the properties of a decoded
object. -/
inductive JsonDoc where
  | null
  | scalarOrArray
  | object (fields : List (String × JSVal))

/-- The property read `result.key`: it throws on `null`, and an absent property
reads as `undefined`. -/
def JsonDoc.get : JsonDoc → String → Except JSError JSVal
  | .null, _ => .error .typeError
  | .scalarOrArray, _ => .ok .undefined
  | .object fields, key => .ok ((fields.lookup key).getD .undefined)

/-- How the two awaits of `processSentence` end: `fetch` or `response.json()`
rejects, or a decoded document is obtained. -/
inductive FetchOutcome where
  | rejected
  | resolved (result : JsonDoc)

/-- The `try` block of `processSentence` after its awaits: the state it
reaches, and the exception that leaves the block if one is thrown. -/
def processSentenceTry (s : State) : FetchOutcome → State × Except JSError Unit
  | .rejected => (s, .error .rejected)
  | .resolved result =>
    match result.get "success" with
    | .error e => (s, .error e)
    | .ok success =>
      if success.truthy then
        match result.get "sentence" with
        | .error e => (s, .error e)
        | .ok sentence =>
          let s := { s with currentSentence := sentence }
          let s := { s with sentenceText :=
            if s.currentSentence.truthy then s.currentSentence else .str sentencePlaceholder }
          match s.currentSentence.trim with
          | .error e => (s, .error e)
          | .ok t => ({ s with speakDisabled := (t == "") }, .ok ())
      else (s, .ok ())

/-- Continuation of `processSentence` when its request settles: the `try`
block, whose exceptions the `catch` block only logs. The result is what the
caller of `processSentence` observes. -/
def processSentenceResume (s : State) (outcome : FetchOutcome) : Except JSError State :=
  let s := { s with pendingSentence := s.pendingSentence - 1 }
  match processSentenceTry s outcome with
  | (s, .ok _) => .ok s
  | (s, .error _) => .ok s

/-- How the awaits of `captureAndPredict` end, for responses that follow the
`/predict` contract: a rejection, a document whose `success` is false, or a
document with `success` true, a string letter and a numeric confidence. -/
inductive PredictOutcome where
  | rejected
  | failure
  | success (letter : String) (confidence : ℚ)

/-- Continuation of `captureAndPredict` when its request settles. -/
def captureAndPredictResume (s : State) (outcome : PredictOutcome) (t1 t2 : Int) : State :=
  let s := { s with pendingPredict := s.pendingPredict - 1 }
  match outcome with
  | .success letter confidence => handlePrediction s letter confidence t1 t2
  | .failure => s
  | .rejected => s

/-- The method `clearText()`. -/
def clearText (s : State) : State :=
  let s := { s with recentLetters := [] }
  let s := { s with currentSentence := .str "" }
  let s := { s with sentenceText := .str sentencePlaceholder }
  let s := { s with lettersList := noLettersHtml }
  let s := { s with speakDisabled := true }
  showToast s "Text cleared" "success"

/-- The method `speakText()`; `speechSupported` is the test
`'speechSynthesis' in window`. -/
def speakText (s : State) (speechSupported : Bool) : Except JSError State :=
  match s.currentSentence.trim with
  | .error e => .error e
  | .ok t =>
    if t == "" then .ok s
    else if speechSupported then
      let s := { s with spoken := s.spoken ++ [s.currentSentence] }
      .ok (showToast s "Speaking text..." "success")
    else
      .ok (showToast s "Text-to-speech not supported" "error")

/-- The method `copyText()`, run to completion; `clipboardOk` tells whether
`navigator.clipboard.writeText` fulfils. An `error` result is the rejection of
the promise the method returns. -/
def copyText (s : State) (clipboardOk : Bool) : Except JSError State :=
  match s.currentSentence.trim with
  | .error e => .error e
  | .ok t =>
    if t == "" then .ok s
    else if clipboardOk then
      let s := { s with clipboard := s.clipboard ++ [s.currentSentence] }
      .ok (showToast s "Text copied to clipboard!" "success")
    else
      .ok (showToast s "Failed to copy text" "error")

/-! ## The page and its events -/

/-- What the script takes from the HTML document, which is not part of the
script: the `disabled` attribute of the four controls at load time. -/
structure HtmlPage where
  startDisabled : Bool
  stopDisabled : Bool
  speakDisabled : Bool
  copyDisabled : Bool

/-- The state after `new SignLanguageDetector()` on a freshly loaded, visible
page: the field initialisers of the constructor, then `showLoading()`. Texts
the script has not written yet are empty. -/
def construct (page : HtmlPage) : State :=
  showLoading
    { isDetecting := false
      detectionInterval := none
      recentLetters := []
      currentSentence := .str ""
      confidenceThreshold := double_0_7
      letterHistory := []
      maxHistoryLength := 20
      srcObject := none
      metadataListeners := 0
      videoWidth := 0
      videoHeight := 0
      canvasWidth := 0
      canvasHeight := 0
      startDisabled := page.startDisabled
      stopDisabled := page.stopDisabled
      speakDisabled := page.speakDisabled
      copyDisabled := page.copyDisabled
      statusDotClass := ""
      statusText := ""
      currentLetterText := ""
      predictedLetterText := ""
      confidenceShown := none
      confidenceColor := ""
      sentenceText := .str ""
      lettersList := ""
      detectionBoxActive := false
      loadingShown := false
      toastIcon := ""
      toastMessage := ""
      toastType := ""
      toastShown := false
      hidden := false
      endedTracks := []
      liveTimers := []
      nextTimer := 0
      pendingCamera := 0
      predictRequests := 0
      pendingPredict := 0
      probePending := false
      sentenceRequests := []
      pendingSentence := 0
      loadingTimeouts := 0
      toastHides := 0
      spoken := []
      clipboard := [] }

/-- Everything that can run a piece of the script. -/
inductive Event where
  | startClick
  | cameraSettled (camera : Option MediaStream)
  | loadedMetadata (width height : Nat)
  | stopClick
  | clearClick
  | speakClick (speechSupported : Bool)
  | copyClick (clipboardOk : Bool)
  | visibilityChange (hiddenNow : Bool)
  | tick (h : TimerHandle) (enoughData : Bool)
  | predictSettled (outcome : PredictOutcome) (t1 t2 : Int)
  | sentenceSettled (outcome : FetchOutcome)
  | probeSettled (fulfilled : Bool)
  | loadingTimeout
  | toastHide

/-- The state a handler leaves when its exception is not caught by the script:
the browser reports the error and the page goes on with the state reached. Both
handlers concerned throw before they write anything. -/
def uncaught (s : State) : Except JSError State → State
  | .ok s1 => s1
  | .error _ => s

/-- One event: `none` when the browser cannot deliver it in state `s` (a click
on a disabled control, a timer that is not live, a settlement with nothing
outstanding, a visibility change to the current visibility, `loadedmetadata`
without a media source). Otherwise the listeners registered by
`setupEventListeners` and `startDetection`, or the pending continuation, run. -/
def step (s : State) : Event → Option State
  | .startClick =>
    if s.startDisabled then none else some (startDetection s)
  | .cameraSettled camera =>
    if s.pendingCamera = 0 then none else some (startDetectionResume s camera)
  | .loadedMetadata width height =>
    if s.srcObject.isNone then none
    else
      let s := { s with videoWidth := width, videoHeight := height }
      some (Nat.iterate onLoadedMetadata s.metadataListeners s)
  | .stopClick =>
    if s.stopDisabled then none else some (stopDetection s)
  | .clearClick => some (clearText s)
  | .speakClick speechSupported =>
    if s.speakDisabled then none else some (uncaught s (speakText s speechSupported))
  | .copyClick clipboardOk =>
    if s.copyDisabled then none else some (uncaught s (copyText s clipboardOk))
  | .visibilityChange hiddenNow =>
    if hiddenNow = s.hidden then none else some (onVisibilityChange s hiddenNow)
  | .tick h enoughData =>
    if h ∈ s.liveTimers then some (onTick s enoughData) else none
  | .predictSettled outcome t1 t2 =>
    if s.pendingPredict = 0 then none else some (captureAndPredictResume s outcome t1 t2)
  | .sentenceSettled outcome =>
    if s.pendingSentence = 0 then none else some (uncaught s (processSentenceResume s outcome))
  | .probeSettled fulfilled =>
    if s.probePending then some (showLoadingResume s fulfilled) else none
  | .loadingTimeout =>
    if s.loadingTimeouts = 0 then none else some (loadingTimeout s)
  | .toastHide =>
    if s.toastHides = 0 then none else some (toastHide s)

/-- A sequence of events, delivered in order. -/
def run (s : State) : List Event → Option State
  | [] => some s
  | e :: es =>
    match step s e with
    | some s1 => run s1 es
    | none => none

/-- The states the page can be in after `new SignLanguageDetector()`. -/
def Reachable (page : HtmlPage) (s : State) : Prop :=
  ∃ es : List Event, run (construct page) es = some s

/-- The live interval timers that `detectionInterval` does not hold. -/
def orphanTimers (s : State) : List TimerHandle :=
  s.liveTimers.filter (fun t => some t != s.detectionInterval)

/-- A prediction handed to `handlePrediction`, with the two clock readings
that `processLetter` takes when it runs for it. -/
structure Prediction where
  letter : String
  confidence : ℚ
  t1 : Int
  t2 : Int

/-- Predictions passed to `handlePrediction` one after another. -/
def handlePredictions (s : State) : List Prediction → State
  | [] => s
  | p :: ps => handlePredictions (handlePrediction s p.letter p.confidence p.t1 p.t2) ps

/-- All clock readings of a sequence of predictions. -/
def clockReadings : List Prediction → List Int
  | [] => []
  | p :: ps => p.t1 :: p.t2 :: clockReadings ps

/-- Acceptance rule in the words of the specification: confidence at least
`0.7` and a letter other than the sentinel. -/
def specAccepts (p : Prediction) : Bool :=
  decide (p.confidence ≥ double_0_7) && decide (p.letter ≠ "nothing")

/-- A page whose start control is enabled and whose other three controls carry
the `disabled` attribute. -/
def samplePage : HtmlPage :=
  { startDisabled := false, stopDisabled := true, speakDisabled := true, copyDisabled := true }

/-- The scenario of the specification: `('A',0.9)`, `('B',0.75)`,
`('nothing',0.95)`, `('C',0.5)`, the confidences being the doubles these
literals denote, with clock readings inside one second. -/
def samplePredictions : List Prediction :=
  [ { letter := "A", confidence := 8106479329266893 / 9007199254740992, t1 := 0, t2 := 0 },
    { letter := "B", confidence := 3 / 4, t1 := 250, t2 := 251 },
    { letter := "nothing", confidence := 4278419646001971 / 4503599627370496, t1 := 500, t2 := 500 },
    { letter := "C", confidence := 1 / 2, t1 := 750, t2 := 750 } ]

/-- The response `{success: true, sentence: "AB"}`. -/
def responseAB : FetchOutcome :=
  .resolved (.object [("success", .bool true), ("sentence", .str "AB")])

/-- The response `{success: false}`. -/
def responseFailure : FetchOutcome :=
  .resolved (.object [("success", .bool false)])

/-- The response `{success: true}`, without a `sentence` property. -/
def responseNoSentence : FetchOutcome :=
  .resolved (.object [("success", .bool true)])

/-- The double denoted by the literal `0.9`. -/
def double_0_9 : ℚ := 8106479329266893 / 9007199254740992

/-- A camera stream with one video track. -/
def sampleStream : MediaStream := { tracks := [1] }

/-- A second camera stream, obtained by a later `getUserMedia` call. -/
def sampleStream2 : MediaStream := { tracks := [2] }

/-- A session from page load to a first sentence: start, camera granted,
metadata loaded, one tick, the prediction `('A', 0.9)` and the response
`{success: true, sentence: "AB"}`. -/
def sampleTrace : List Event :=
  [ .startClick, .cameraSettled (some sampleStream), .loadedMetadata 640 480,
    .tick ⟨0⟩ true, .predictSettled (.success "A" double_0_9) 1000 1000,
    .sentenceSettled responseAB ]

/-- The state after a sequence of events on the sample page (the constructed
state if some event cannot be delivered). -/
def sessionAfter (es : List Event) : State :=
  (run (construct samplePage) es).getD (construct samplePage)

/-- The sample session followed by a second prediction `('B', 0.75)` whose
sentence request is answered `{success: true}` with no `sentence`. -/
def malformedTrace : List Event :=
  sampleTrace ++
    [ .tick ⟨0⟩ true, .predictSettled (.success "B" (3 / 4)) 1500 1500,
      .sentenceSettled responseNoSentence ]

/-- The part of the state that the speak and copy controls depend on: the
cached sentence and the `disabled` flag of the two controls. -/
def controls (s : State) : JSVal × Bool × Bool :=
  (s.currentSentence, s.speakDisabled, s.copyDisabled)

/-- What the script maintains for the speak and copy controls: whenever the
cached sentence is a string, the speak control is disabled exactly when the
trimmed sentence is empty; the copy control has the flag the page gave it. -/
def SpeakCopyInv (page : HtmlPage) (s : State) : Prop :=
  (∀ x : String, s.currentSentence = .str x → (s.speakDisabled = true ↔ jsTrim x = ""))
  ∧ s.copyDisabled = page.copyDisabled

/-- The property of the speak and copy controls in the words of the
specification: each is disabled exactly when `currentSentence.trim()` is the
empty string. -/
def SpecControls (s : State) : Prop :=
  (s.speakDisabled = true ↔ s.currentSentence.trim = .ok "")
  ∧ (s.copyDisabled = true ↔ s.currentSentence.trim = .ok "")

/-- A session in which the first sentence request is answered `{success: true}`
with no `sentence`. -/
def malformedFirstTrace : List Event :=
  [ .startClick, .cameraSettled (some sampleStream), .loadedMetadata 640 480,
    .tick ⟨0⟩ true, .predictSettled (.success "A" double_0_9) 1000 1000,
    .sentenceSettled responseNoSentence ]

/-- A page like `samplePage` whose copy control is enabled at load time. -/
def copyEnabledPage : HtmlPage :=
  { startDisabled := false, stopDisabled := true, speakDisabled := true, copyDisabled := false }

/-- Start, stop and start again: the camera is granted, its metadata loads,
the user stops, starts again, the camera is granted again and the metadata of
the new stream loads. -/
def restartTrace : List Event :=
  [ .startClick, .cameraSettled (some sampleStream), .loadedMetadata 640 480,
    .stopClick,
    .startClick, .cameraSettled (some sampleStream2), .loadedMetadata 640 480 ]

/-- Start, then the page is hidden before the metadata of the stream loads, and
shown again afterwards. -/
def hiddenStartTrace : List Event :=
  [ .startClick, .cameraSettled (some sampleStream), .visibilityChange true,
    .loadedMetadata 640 480, .visibilityChange false ]

/-- A letter that carries markup: it closes the span it is interpolated into
and opens another letter item. -/
def markupLetter : String := "</span><span class=\"letter-item\">X"

/-- The prediction `(markupLetter, 0.9)`. -/
def markupPrediction : Prediction :=
  { letter := markupLetter, confidence := double_0_9, t1 := 0, t2 := 0 }

/-- Twelve predictions of plain letters, all accepted, inside one second. -/
def twelvePredictions : List Prediction :=
  ["A", "B", "C", "D", "E", "F", "G", "H", "I", "J", "K", "L"].map
    (fun l => { letter := l, confidence := double_0_9, t1 := 0, t2 := 0 })

/-! ## Lemmas on the prediction path -/

theorem updateConfidenceColor_recentLetters (s : State) (c : ℚ) :
    (updateConfidenceColor s c).recentLetters = s.recentLetters := by
  unfold updateConfidenceColor
  split
  · rfl
  · split <;> rfl

theorem updateConfidenceColor_threshold (s : State) (c : ℚ) :
    (updateConfidenceColor s c).confidenceThreshold = s.confidenceThreshold := by
  unfold updateConfidenceColor
  split
  · rfl
  · split <;> rfl

theorem updateLettersList_recentLetters (s : State) :
    (updateLettersList s).recentLetters = s.recentLetters := by
  unfold updateLettersList
  split <;> rfl

theorem processLetter_recentLetters (s : State) (letter : String) (t1 t2 : Int) :
    (processLetter s letter t1 t2).recentLetters =
      (s.recentLetters ++ [LetterEntry.mk letter t1]).filter
        (fun item => decide (item.timestamp > t2 - 10000)) := by
  simp only [processLetter, processSentence, updateLettersList_recentLetters]

theorem processLetter_threshold (s : State) (letter : String) (t1 t2 : Int) :
    (processLetter s letter t1 t2).confidenceThreshold = s.confidenceThreshold := by
  unfold processLetter processSentence updateLettersList
  simp only
  split <;> rfl

theorem handlePrediction_recentLetters (s : State) (letter : String) (c : ℚ) (t1 t2 : Int) :
    (handlePrediction s letter c t1 t2).recentLetters =
      if s.confidenceThreshold ≤ c ∧ letter ≠ "nothing" then
        (s.recentLetters ++ [LetterEntry.mk letter t1]).filter
          (fun item => decide (item.timestamp > t2 - 10000))
      else s.recentLetters := by
  unfold handlePrediction
  simp only [updateConfidenceColor_recentLetters]
  by_cases h : s.confidenceThreshold ≤ c ∧ letter ≠ "nothing"
  · have h1 : (decide (s.confidenceThreshold ≤ c) && letter != "nothing") = true := by
      simp [h.1, h.2]
    rw [if_pos h, if_pos h1]
    exact processLetter_recentLetters _ _ _ _
  · have h1 : (decide (s.confidenceThreshold ≤ c) && letter != "nothing") = false := by
      rcases not_and_or.mp h with h2 | h2
      · simp [h2]
      · simp at h2; simp [h2]
    rw [if_neg h, if_neg (by simp [h1])]

theorem handlePrediction_threshold (s : State) (letter : String) (c : ℚ) (t1 t2 : Int) :
    (handlePrediction s letter c t1 t2).confidenceThreshold = s.confidenceThreshold := by
  unfold handlePrediction
  simp only [updateConfidenceColor_threshold]
  split
  · exact processLetter_threshold _ _ _ _
  · rfl

theorem jsSlice_neg_ten (xs : List α) : jsSlice (-10) xs = xs.drop (xs.length - 10) := by
  unfold jsSlice
  simp only
  congr 1
  omega

theorem specAccepts_iff (p : Prediction) :
    specAccepts p = true ↔ double_0_7 ≤ p.confidence ∧ p.letter ≠ "nothing" := by
  simp [specAccepts]

theorem filter_window_eq_self (w : List LetterEntry) (t : Int)
    (h : ∀ e ∈ w, t - 10000 < e.timestamp) :
    w.filter (fun item => decide (item.timestamp > t - 10000)) = w := by
  apply List.filter_eq_self.mpr
  intro e he
  simpa using h e he

theorem handlePredictions_letters (ps : List Prediction) :
    ∀ s : State, s.confidenceThreshold = double_0_7 →
      (∀ e ∈ s.recentLetters, ∀ b ∈ clockReadings ps, b - 10000 < e.timestamp) →
      (∀ a ∈ clockReadings ps, ∀ b ∈ clockReadings ps, a - b < 10000) →
      (handlePredictions s ps).recentLetters.map (fun e => e.letter) =
        s.recentLetters.map (fun e => e.letter) ++
          (ps.filter specAccepts).map (fun p => p.letter) := by
  induction ps with
  | nil => intro s _ _ _; simp [handlePredictions]
  | cons p ps ih =>
    intro s ht hw hc
    have hc1 : ∀ a ∈ clockReadings ps, ∀ b ∈ clockReadings ps, a - b < 10000 := by
      intro a ha b hb
      exact hc a (by simp [clockReadings, ha]) b (by simp [clockReadings, hb])
    have ht1 := handlePrediction_threshold s p.letter p.confidence p.t1 p.t2
    have hrl := handlePrediction_recentLetters s p.letter p.confidence p.t1 p.t2
    rw [ht] at hrl
    simp only [handlePredictions]
    by_cases hacc : double_0_7 ≤ p.confidence ∧ p.letter ≠ "nothing"
    · rw [if_pos hacc] at hrl
      have hkeep : ∀ e ∈ s.recentLetters ++ [LetterEntry.mk p.letter p.t1],
          p.t2 - 10000 < e.timestamp := by
        intro e he
        rcases List.mem_append.mp he with h1 | h1
        · exact hw e h1 p.t2 (by simp [clockReadings])
        · have : e = LetterEntry.mk p.letter p.t1 := by simpa using h1
          subst this
          have := hc p.t2 (by simp [clockReadings]) p.t1 (by simp [clockReadings])
          simp only
          omega
      rw [filter_window_eq_self _ _ hkeep] at hrl
      have hw1 : ∀ e ∈ (handlePrediction s p.letter p.confidence p.t1 p.t2).recentLetters,
          ∀ b ∈ clockReadings ps, b - 10000 < e.timestamp := by
        intro e he b hb
        rw [hrl] at he
        rcases List.mem_append.mp he with h1 | h1
        · exact hw e h1 b (by simp [clockReadings, hb])
        · have : e = LetterEntry.mk p.letter p.t1 := by simpa using h1
          subst this
          have := hc b (by simp [clockReadings, hb]) p.t1 (by simp [clockReadings])
          simp only
          omega
      rw [ih _ (ht1.trans ht) hw1 hc1, hrl]
      have hs : specAccepts p = true := (specAccepts_iff p).mpr hacc
      simp [List.filter_cons, hs]
    · rw [if_neg hacc] at hrl
      have hw1 : ∀ e ∈ (handlePrediction s p.letter p.confidence p.t1 p.t2).recentLetters,
          ∀ b ∈ clockReadings ps, b - 10000 < e.timestamp := by
        intro e he b hb
        rw [hrl] at he
        exact hw e he b (by simp [clockReadings, hb])
      rw [ih _ (ht1.trans ht) hw1 hc1, hrl]
      have hs : specAccepts p = false := by
        cases h : specAccepts p
        · rfl
        · exact absurd ((specAccepts_iff p).mp h) hacc
      simp [List.filter_cons, hs]

/-! ## Settled claims -/

/-- C1: starting from an empty window with the default threshold, and with all
clock readings less than 10000 ms apart, the letters left in `recentLetters` by
a sequence of `handlePrediction` calls are, in order, the letters of the
predictions with confidence at least `0.7` and a letter other than `nothing`.
A single prediction with confidence exactly `0.7` is kept, one below `0.7` is
dropped, and `nothing` is dropped at every confidence. -/
theorem C1_handlePrediction_keeps_accepted_letters (s : State) (ps : List Prediction)
    (hempty : s.recentLetters = [])
    (hthreshold : s.confidenceThreshold = double_0_7)
    (hclock : ∀ a ∈ clockReadings ps, ∀ b ∈ clockReadings ps, a - b < 10000) :
    (handlePredictions s ps).recentLetters.map (fun e => e.letter) =
        (ps.filter specAccepts).map (fun p => p.letter)
    ∧ (∀ (letter : String) (t1 t2 : Int), letter ≠ "nothing" → t2 - t1 < 10000 →
        (handlePrediction s letter double_0_7 t1 t2).recentLetters.map (fun e => e.letter)
          = [letter])
    ∧ (∀ (letter : String) (c : ℚ) (t1 t2 : Int), c < double_0_7 →
        (handlePrediction s letter c t1 t2).recentLetters = [])
    ∧ (∀ (c : ℚ) (t1 t2 : Int),
        (handlePrediction s "nothing" c t1 t2).recentLetters = []) := by
  refine ⟨?_, ?_, ?_, ?_⟩
  · have h := handlePredictions_letters ps s hthreshold (by simp [hempty]) hclock
    simpa [hempty] using h
  · intro letter t1 t2 hl ht
    rw [handlePrediction_recentLetters, hthreshold, if_pos ⟨le_refl _, hl⟩, hempty]
    have : decide (t1 > t2 - 10000) = true := by
      simp only [gt_iff_lt, decide_eq_true_eq]; omega
    simp [List.filter_cons, this]
  · intro letter c t1 t2 hc
    rw [handlePrediction_recentLetters, hthreshold, if_neg, hempty]
    intro h
    exact absurd h.1 (not_le.mpr hc)
  · intro c t1 t2
    rw [handlePrediction_recentLetters, if_neg, hempty]
    intro h
    exact h.2 rfl

/-- C2: after `processLetter` with pruning time `now`, every entry of
`recentLetters` has a timestamp above `now - 10000` (so none is 10000 ms or
more older than `now`), and the window is the previous window followed by the
new entry, restricted to the entries within that bound, in their order. -/
theorem C2_processLetter_prunes_window (s : State) (letter : String) (t1 now : Int) :
    (∀ e ∈ (processLetter s letter t1 now).recentLetters, e.timestamp > now - 10000)
    ∧ (∀ e ∈ (processLetter s letter t1 now).recentLetters, now - e.timestamp < 10000)
    ∧ (processLetter s letter t1 now).recentLetters =
        (s.recentLetters ++ [LetterEntry.mk letter t1]).filter
          (fun e => decide (e.timestamp > now - 10000))
    ∧ List.Sublist (processLetter s letter t1 now).recentLetters
        (s.recentLetters ++ [LetterEntry.mk letter t1])
    ∧ (∀ e ∈ s.recentLetters ++ [LetterEntry.mk letter t1],
        (e ∈ (processLetter s letter t1 now).recentLetters ↔ e.timestamp > now - 10000)) := by
  rw [processLetter_recentLetters]
  refine ⟨?_, ?_, rfl, List.filter_sublist _, ?_⟩
  · intro e he
    have := (List.mem_filter.mp he).2
    simpa using this
  · intro e he
    have := (List.mem_filter.mp he).2
    simp only [gt_iff_lt, decide_eq_true_eq] at this
    omega
  · intro e he
    rw [List.mem_filter]
    simp [he]

/-! ### The letters list -/

theorem letterItemOpen_data :
    letterItemOpen.data = '<' :: "span class=\"letter-item\">".data := rfl

theorem letterItemClose_data : letterItemClose.data = '<' :: '/' :: "span>".data := rfl

theorem startsWithChars_self_append (pattern rest : List Char) :
    startsWithChars pattern (pattern ++ rest) = true := by
  induction pattern with
  | nil => rfl
  | cons p ps ih => simp [startsWithChars, ih]

theorem countOpenTags_skip (xs rest : List Char) (h : '<' ∉ xs) :
    countOpenTags letterItemOpen.data (xs ++ rest) = countOpenTags letterItemOpen.data rest := by
  induction xs with
  | nil => rfl
  | cons c cs ih =>
    have hc : ('<' == c) = false := by
      have : '<' ≠ c := fun hEq => h (hEq ▸ List.mem_cons_self _ _)
      simpa using this
    have hcs : '<' ∉ cs := fun hmem => h (List.mem_cons_of_mem _ hmem)
    rw [List.cons_append, countOpenTags, letterItemOpen_data, startsWithChars, hc]
    rw [← letterItemOpen_data, ih hcs]
    simp

theorem countOpenTags_letterItemHtml (letter : String) (rest : List Char)
    (h : '<' ∉ letter.data) :
    countOpenTags letterItemOpen.data ((letterItemHtml letter).data ++ rest)
      = 1 + countOpenTags letterItemOpen.data rest := by
  have hdata : (letterItemHtml letter).data ++ rest
      = letterItemOpen.data ++ (letter.data ++ (letterItemClose.data ++ rest)) := by
    simp [letterItemHtml, String.data_append, List.append_assoc]
  have htail : '<' ∉ "span class=\"letter-item\">".data ++ letter.data := by
    intro hmem
    rcases List.mem_append.mp hmem with h1 | h1
    · exact absurd h1 (by decide)
    · exact h h1
  have hclose : countOpenTags letterItemOpen.data (letterItemClose.data ++ rest)
      = countOpenTags letterItemOpen.data rest := by
    have hskip := countOpenTags_skip ('/' :: "span>".data) rest (by decide)
    rw [letterItemClose_data, List.cons_append, countOpenTags]
    have hno : startsWithChars letterItemOpen.data
        ('<' :: (('/' :: "span>".data) ++ rest)) = false := by
      rw [letterItemOpen_data]
      rfl
    rw [hno, hskip]
    simp
  rw [hdata]
  have hstart := startsWithChars_self_append letterItemOpen.data
    (letter.data ++ (letterItemClose.data ++ rest))
  have hsplit : letterItemOpen.data ++ (letter.data ++ (letterItemClose.data ++ rest))
      = '<' :: (("span class=\"letter-item\">".data ++ letter.data)
          ++ (letterItemClose.data ++ rest)) := by
    rw [letterItemOpen_data]
    simp [List.append_assoc]
  rw [hsplit] at hstart ⊢
  rw [countOpenTags, hstart, countOpenTags_skip _ _ htail, hclose]
  simp

theorem countLetterItems_jsJoin (entries : List LetterEntry)
    (h : ∀ e ∈ entries, '<' ∉ e.letter.data) :
    countLetterItems (jsJoin (entries.map (fun item => letterItemHtml item.letter)))
      = entries.length := by
  unfold countLetterItems
  induction entries with
  | nil => rfl
  | cons e es ih =>
    have hes : ∀ x ∈ es, '<' ∉ x.letter.data := fun x hx => h x (List.mem_cons_of_mem _ hx)
    have hrest := countOpenTags_letterItemHtml e.letter
      (jsJoin (es.map (fun item => letterItemHtml item.letter))).data
      (h e (List.mem_cons_self _ _))
    simp only [List.map_cons, jsJoin, String.data_append, List.length_cons]
    rw [hrest, ih hes]
    omega

/-- C8, as stated, fails: a window of one entry whose letter carries markup is
rendered as two letter items, the very HTML of the two letters `""` and `X`,
and ten such entries, all shown, are rendered as twenty letter items. -/
theorem C8_counterexample_markup_letter :
    (handlePredictions (construct samplePage) [markupPrediction]).recentLetters.length = 1
    ∧ (handlePredictions (construct samplePage) [markupPrediction]).lettersList
        = "<span class=\"letter-item\"></span><span class=\"letter-item\">X</span>"
    ∧ (handlePredictions (construct samplePage) [markupPrediction]).lettersList
        = jsJoin [letterItemHtml "", letterItemHtml "X"]
    ∧ countLetterItems
        (handlePredictions (construct samplePage) [markupPrediction]).lettersList = 2
    ∧ (handlePredictions (construct samplePage)
        (List.replicate 10 markupPrediction)).recentLetters.length = 10
    ∧ countLetterItems (handlePredictions (construct samplePage)
        (List.replicate 10 markupPrediction)).lettersList = 20 := by
  decide!

/-- C8, amended: for every window of `n` entries, `updateLettersList` assigns
the placeholder when the window is empty, and otherwise the concatenation, in
window order, of one `letter-item` span per entry of the last `min n 10`
entries, so never of more than 10 entries however many the window holds. When
none of these letters contains the character `<`, the assigned HTML holds
exactly `min n 10` letter items. -/
theorem C8_updateLettersList_writes_last_ten (s : State) :
    ((s.recentLetters.drop
        (s.recentLetters.length - min s.recentLetters.length 10)).length
        = min s.recentLetters.length 10)
    ∧ ((s.recentLetters.drop
        (s.recentLetters.length - min s.recentLetters.length 10)).length ≤ 10)
    ∧ (∃ older : List LetterEntry, s.recentLetters = older ++ s.recentLetters.drop
        (s.recentLetters.length - min s.recentLetters.length 10))
    ∧ (s.recentLetters = [] → (updateLettersList s).lettersList = noLettersHtml)
    ∧ (s.recentLetters = [] → countLetterItems (updateLettersList s).lettersList = 0)
    ∧ (s.recentLetters ≠ [] → (updateLettersList s).lettersList =
        jsJoin ((s.recentLetters.drop
          (s.recentLetters.length - min s.recentLetters.length 10)).map
            (fun e => letterItemHtml e.letter)))
    ∧ (s.recentLetters ≠ [] →
        (∀ e ∈ s.recentLetters.drop
          (s.recentLetters.length - min s.recentLetters.length 10), '<' ∉ e.letter.data) →
        countLetterItems (updateLettersList s).lettersList = min s.recentLetters.length 10) := by
  have hmin : s.recentLetters.length - min s.recentLetters.length 10
      = s.recentLetters.length - 10 := by omega
  have hshown : ∀ h : s.recentLetters ≠ [], (updateLettersList s).lettersList =
      jsJoin ((s.recentLetters.drop (s.recentLetters.length - 10)).map
        (fun e => letterItemHtml e.letter)) := by
    intro h
    have hlen : s.recentLetters.length ≠ 0 := fun h0 => h (List.length_eq_zero.mp h0)
    unfold updateLettersList
    rw [if_neg hlen, jsSlice_neg_ten]
  have hempty : s.recentLetters = [] → (updateLettersList s).lettersList = noLettersHtml := by
    intro h
    simp [updateLettersList, h]
  rw [hmin]
  refine ⟨?_, ?_, ⟨s.recentLetters.take (s.recentLetters.length - 10), ?_⟩, hempty, ?_,
    hshown, ?_⟩
  · rw [List.length_drop]; omega
  · rw [List.length_drop]; omega
  · exact (List.take_append_drop _ _).symm
  · intro h
    rw [hempty h]
    decide
  · intro h hplain
    rw [hshown h, countLetterItems_jsJoin _ hplain, List.length_drop]
    omega

/-- Witness for C8: twelve plain letters `A` to `L` are accepted; the list
shows the ten letters `C` to `L`. -/
theorem C8_witness_twelve_letters :
    (handlePredictions (construct samplePage) twelvePredictions).recentLetters.length = 12
    ∧ (updateLettersList (handlePredictions (construct samplePage)
        twelvePredictions)).lettersList
        = jsJoin (["C", "D", "E", "F", "G", "H", "I", "J", "K", "L"].map letterItemHtml)
    ∧ countLetterItems (updateLettersList (handlePredictions (construct samplePage)
        twelvePredictions)).lettersList = 10 := by
  have hlen : (handlePredictions (construct samplePage) twelvePredictions).recentLetters.length
      = 12 := by decide!
  have hne : (handlePredictions (construct samplePage) twelvePredictions).recentLetters ≠ [] := by
    intro h
    rw [h] at hlen
    cases hlen
  have h := C8_updateLettersList_writes_last_ten
    (handlePredictions (construct samplePage) twelvePredictions)
  refine ⟨hlen, ?_, ?_⟩
  · rw [h.2.2.2.2.2.1 hne]
    decide!
  · rw [h.2.2.2.2.2.2 hne (by decide!), hlen]
    rfl

/-- Witness for C1: the four predictions of the scenario, handled from the
constructed state, leave the letters `A`, `B`. -/
theorem C1_witness_scenario :
    (construct samplePage).recentLetters = []
    ∧ (construct samplePage).confidenceThreshold = double_0_7
    ∧ (∀ a ∈ clockReadings samplePredictions, ∀ b ∈ clockReadings samplePredictions,
        a - b < 10000)
    ∧ (handlePredictions (construct samplePage) samplePredictions).recentLetters.map
        (fun e => e.letter) = ["A", "B"] := by
  have hc : ∀ a ∈ clockReadings samplePredictions, ∀ b ∈ clockReadings samplePredictions,
      a - b < 10000 := by decide
  refine ⟨rfl, rfl, hc, ?_⟩
  rw [(C1_handlePrediction_keeps_accepted_letters (construct samplePage) samplePredictions
    rfl rfl hc).1]
  have hA : specAccepts
      { letter := "A", confidence := 8106479329266893 / 9007199254740992, t1 := 0, t2 := 0 }
      = true := by
    rw [specAccepts_iff]; refine ⟨?_, by decide⟩; norm_num [double_0_7]
  have hB : specAccepts { letter := "B", confidence := 3 / 4, t1 := 250, t2 := 251 }
      = true := by
    rw [specAccepts_iff]; refine ⟨?_, by decide⟩; norm_num [double_0_7]
  have hN : specAccepts
      { letter := "nothing", confidence := 4278419646001971 / 4503599627370496,
        t1 := 500, t2 := 500 } = false := by
    simp [specAccepts]
  have hC : specAccepts { letter := "C", confidence := 1 / 2, t1 := 750, t2 := 750 }
      = false := by
    have hlt : ¬ (double_0_7 ≤ (1 / 2 : ℚ)) := by norm_num [double_0_7]
    cases h : specAccepts { letter := "C", confidence := 1 / 2, t1 := 750, t2 := 750 }
    · rfl
    · exact absurd ((specAccepts_iff _).mp h).1 hlt
  simp only [samplePredictions, List.filter_cons, hA, hB, hN, hC, List.filter_nil,
    if_true, Bool.false_eq_true, if_false, List.map]


/-! ### Sentence responses -/

theorem processSentenceTry_rejected (s : State) :
    processSentenceTry s .rejected = (s, .error .rejected) := rfl

theorem processSentenceTry_null (s : State) :
    processSentenceTry s (.resolved .null) = (s, .error .typeError) := rfl

theorem processSentenceTry_currentSentence_of_falsy (s : State) (doc : JsonDoc) (v : JSVal)
    (hget : doc.get "success" = .ok v) (hv : v.truthy = false) :
    processSentenceTry s (.resolved doc) = (s, .ok ()) := by
  simp [processSentenceTry, hget, hv]

theorem processSentenceTry_currentSentence_of_truthy (s : State) (doc : JsonDoc)
    (v w : JSVal) (hget : doc.get "success" = .ok v) (hv : v.truthy = true)
    (hsent : doc.get "sentence" = .ok w) :
    (processSentenceTry s (.resolved doc)).1.currentSentence = w := by
  simp only [processSentenceTry, hget, hv, if_true, hsent]
  cases w <;> rfl

theorem processSentenceResume_ok (s : State) (outcome : FetchOutcome) :
    processSentenceResume s outcome =
      .ok (processSentenceTry { s with pendingSentence := s.pendingSentence - 1 } outcome).1 := by
  unfold processSentenceResume
  simp only
  rcases h : processSentenceTry { s with pendingSentence := s.pendingSentence - 1 } outcome
    with ⟨s1, r⟩
  cases r <;> rfl

/-- C3: whatever the outcome of the `/process_sentence` call, `processSentence`
ends without an exception for its caller. When the decoded response has a
truthy `success` (in particular `true`), the cached sentence is replaced by the
`sentence` of the response; when `success` is falsy, when the decoded document
is `null` so that reading `success` throws, and when the request or the
decoding rejects, the cached sentence is the one held before. -/
theorem C3_processSentence_replaces_or_keeps (s : State) (outcome : FetchOutcome) :
    ∃ s1 : State, processSentenceResume s outcome = .ok s1
      ∧ (∀ (doc : JsonDoc) (v w : JSVal), outcome = .resolved doc →
          doc.get "success" = .ok v → v.truthy = true → doc.get "sentence" = .ok w →
          s1.currentSentence = w)
      ∧ (∀ (fields : List (String × JSVal)) (x : String),
          outcome = .resolved (.object fields) →
          fields.lookup "success" = some (.bool true) →
          fields.lookup "sentence" = some (.str x) →
          s1.currentSentence = .str x)
      ∧ (∀ (doc : JsonDoc) (v : JSVal), outcome = .resolved doc →
          doc.get "success" = .ok v → v.truthy = false →
          s1.currentSentence = s.currentSentence)
      ∧ (outcome = .resolved .null → s1.currentSentence = s.currentSentence)
      ∧ (outcome = .rejected → s1.currentSentence = s.currentSentence) := by
  refine ⟨_, processSentenceResume_ok s outcome, ?_, ?_, ?_, ?_, ?_⟩
  · intro doc v w ho hget hv hsent
    subst ho
    exact processSentenceTry_currentSentence_of_truthy _ doc v w hget hv hsent
  · intro fields x ho hsucc hsent
    subst ho
    exact processSentenceTry_currentSentence_of_truthy _ (.object fields) (.bool true) (.str x)
      (by simp [JsonDoc.get, hsucc]) rfl (by simp [JsonDoc.get, hsent])
  · intro doc v ho hget hv
    subst ho
    rw [processSentenceTry_currentSentence_of_falsy _ doc v hget hv]
  · intro ho
    subst ho
    rw [processSentenceTry_null]
  · intro ho
    subst ho
    rw [processSentenceTry_rejected]

/-- Witness for C3: on the constructed state the response
`{success: true, sentence: "AB"}` makes the cached sentence `AB`, and a
following `{success: false}` leaves it `AB`. -/
theorem C3_witness_scenario :
    ∃ s1 s2 : State,
      processSentenceResume (construct samplePage) responseAB = .ok s1
      ∧ s1.currentSentence = .str "AB"
      ∧ processSentenceResume s1 responseFailure = .ok s2
      ∧ s2.currentSentence = .str "AB" := by
  obtain ⟨s1, h1, _, hAB, _⟩ :=
    C3_processSentence_replaces_or_keeps (construct samplePage) responseAB
  obtain ⟨s2, h2, _, _, hkeep, _⟩ := C3_processSentence_replaces_or_keeps s1 responseFailure
  have e1 : s1.currentSentence = .str "AB" :=
    hAB [("success", .bool true), ("sentence", .str "AB")] "AB" rfl (by decide) (by decide)
  have e2 : s2.currentSentence = s1.currentSentence :=
    hkeep (.object [("success", .bool false)]) (.bool false) rfl rfl rfl
  exact ⟨s1, s2, h1, e1, h2, e2.trans e1⟩

/-! ### Stop and clear -/

/-- C4: from every state, `stopDetection` leaves the video without a stream,
with every track of the stream that was attached ended, `detectionInterval`
null (its timer no longer live) and `isDetecting` false; `/predict` calls that
are outstanding stay outstanding and do not change this; a second
`stopDetection` leaves the stream, the ended tracks, the timer handle, the live
timers and the active flag as the first did. -/
theorem C4_stopDetection_releases_camera_and_timer (s : State) :
    (stopDetection s).srcObject = none
    ∧ (∀ stream : MediaStream, s.srcObject = some stream →
        ∀ t ∈ stream.tracks, t ∈ (stopDetection s).endedTracks)
    ∧ (stopDetection s).detectionInterval = none
    ∧ (∀ h : TimerHandle, s.detectionInterval = some h → h ∉ (stopDetection s).liveTimers)
    ∧ (stopDetection s).isDetecting = false
    ∧ (stopDetection s).pendingPredict = s.pendingPredict
    ∧ (stopDetection (stopDetection s)).srcObject = (stopDetection s).srcObject
    ∧ (stopDetection (stopDetection s)).endedTracks = (stopDetection s).endedTracks
    ∧ (stopDetection (stopDetection s)).detectionInterval = (stopDetection s).detectionInterval
    ∧ (stopDetection (stopDetection s)).liveTimers = (stopDetection s).liveTimers
    ∧ (stopDetection (stopDetection s)).isDetecting = (stopDetection s).isDetecting := by
  rcases hsrc : s.srcObject with _ | stream <;> rcases htimer : s.detectionInterval with _ | h <;>
    simp [stopDetection, showToast, updateStatus, updateUI, clearInterval, hsrc, htimer] <;>
    exact fun t ht => Or.inr ht

/-- Witness for C4: the never-started state, and a running session with a
`/predict` call outstanding. -/
theorem C4_witness_never_started_and_outstanding :
    (stopDetection (construct samplePage)).srcObject = none
    ∧ (stopDetection (construct samplePage)).detectionInterval = none
    ∧ (stopDetection (construct samplePage)).isDetecting = false
    ∧ (sessionAfter (sampleTrace.take 4)).pendingPredict = 1
    ∧ (sessionAfter (sampleTrace.take 4)).srcObject = some sampleStream
    ∧ (stopDetection (sessionAfter (sampleTrace.take 4))).srcObject = none
    ∧ (1 ∈ (stopDetection (sessionAfter (sampleTrace.take 4))).endedTracks)
    ∧ (stopDetection (sessionAfter (sampleTrace.take 4))).liveTimers = [] := by
  have h0 := C4_stopDetection_releases_camera_and_timer (construct samplePage)
  have h1 := C4_stopDetection_releases_camera_and_timer (sessionAfter (sampleTrace.take 4))
  refine ⟨h0.1, h0.2.2.1, h0.2.2.2.2.1, by decide, by decide, h1.1, ?_, by decide⟩
  exact h1.2.1 sampleStream (by decide) 1 (by decide)

theorem stopDetection_recentLetters (s : State) :
    (stopDetection s).recentLetters = s.recentLetters := by
  rcases hsrc : s.srcObject with _ | stream <;> rcases htimer : s.detectionInterval with _ | h <;>
    simp [stopDetection, showToast, updateStatus, updateUI, hsrc, htimer]

theorem stopDetection_currentSentence (s : State) :
    (stopDetection s).currentSentence = s.currentSentence := by
  rcases hsrc : s.srcObject with _ | stream <;> rcases htimer : s.detectionInterval with _ | h <;>
    simp [stopDetection, showToast, updateStatus, updateUI, hsrc, htimer]

/-- C6, as stated, fails: in the session that has kept the letter `A` and
cached the sentence `AB`, `stopDetection` leaves a window that is not empty and
a cached sentence that is not the empty string. -/
theorem C6_counterexample_stop_keeps_session :
    (run (construct samplePage) sampleTrace).isSome = true
    ∧ (stopDetection (sessionAfter sampleTrace)).recentLetters ≠ []
    ∧ (stopDetection (sessionAfter sampleTrace)).currentSentence ≠ JSVal.str "" := by
  decide!

/-- C6, amended: the window and the cached sentence are reset by `clearText`
only; `stopDetection` leaves `recentLetters` and `currentSentence` as they
were, and after `clearText` the window is empty and the sentence is the empty
string. -/
theorem C6_stop_keeps_and_clear_resets (s : State) :
    (stopDetection s).recentLetters = s.recentLetters
    ∧ (stopDetection s).currentSentence = s.currentSentence
    ∧ (clearText s).recentLetters = []
    ∧ (clearText s).currentSentence = JSVal.str "" :=
  ⟨stopDetection_recentLetters s, stopDetection_currentSentence s, rfl, rfl⟩

/-- C7: from every state `clearText` gives an empty window, the empty string as
cached sentence and a disabled speak control, and issues no request to
`/process_sentence` or `/predict`. A second `clearText` gives the state of the
first again (window, sentence, controls, display and every other field), the
only addition being the auto-hide callback that its toast schedules; on a state
whose window and sentence are already empty they stay empty. -/
theorem C7_clearText_empties_and_is_idempotent (s : State) :
    (clearText s).recentLetters = []
    ∧ (clearText s).currentSentence = JSVal.str ""
    ∧ (clearText s).speakDisabled = true
    ∧ (clearText s).sentenceRequests = s.sentenceRequests
    ∧ (clearText s).pendingSentence = s.pendingSentence
    ∧ (clearText s).predictRequests = s.predictRequests
    ∧ (clearText s).pendingPredict = s.pendingPredict
    ∧ clearText (clearText s) =
        { clearText s with toastHides := (clearText s).toastHides + 1 }
    ∧ (clearText (clearText s)).recentLetters = (clearText s).recentLetters
    ∧ (clearText (clearText s)).currentSentence = (clearText s).currentSentence
    ∧ (clearText (clearText s)).speakDisabled = (clearText s).speakDisabled
    ∧ (clearText (clearText s)).sentenceText = (clearText s).sentenceText
    ∧ (clearText (clearText s)).lettersList = (clearText s).lettersList
    ∧ (s.recentLetters = [] → s.currentSentence = JSVal.str "" →
        (clearText s).recentLetters = s.recentLetters
        ∧ (clearText s).currentSentence = s.currentSentence) := by
  refine ⟨rfl, rfl, rfl, rfl, rfl, rfl, rfl, ?_, rfl, rfl, rfl, rfl, rfl, ?_⟩
  · simp [clearText, showToast]
  · intro h1 h2
    exact ⟨h1.symm ▸ rfl, h2.symm ▸ rfl⟩

/-- Witness for C7: `clearText` on the constructed state, whose window and
sentence are already empty. -/
theorem C7_witness_clear_on_empty :
    (construct samplePage).recentLetters = []
    ∧ (construct samplePage).currentSentence = JSVal.str ""
    ∧ (clearText (construct samplePage)).recentLetters = (construct samplePage).recentLetters
    ∧ (clearText (construct samplePage)).currentSentence
        = (construct samplePage).currentSentence :=
  ⟨rfl, rfl,
    ((C7_clearText_empties_and_is_idempotent (construct samplePage)).2.2.2.2.2.2.2.2.2.2.2.2.2
      rfl rfl).1,
    ((C7_clearText_empties_and_is_idempotent (construct samplePage)).2.2.2.2.2.2.2.2.2.2.2.2.2
      rfl rfl).2⟩

/-! ### A success response without a sentence -/

theorem processSentenceTry_no_sentence (s : State) (fields : List (String × JSVal))
    (hsuccess : ((fields.lookup "success").getD .undefined).truthy = true)
    (hmissing : fields.lookup "sentence" = none) :
    processSentenceTry s (.resolved (.object fields)) =
      ({ s with currentSentence := .undefined, sentenceText := .str sentencePlaceholder },
        .error .typeError) := by
  simp only [processSentenceTry, JsonDoc.get, hsuccess, hmissing, if_true, Option.getD_none]
  rfl

theorem speakText_ok_of_str (s : State) (x : String) (b : Bool)
    (h : s.currentSentence = .str x) : ∃ s3 : State, speakText s b = .ok s3 := by
  unfold speakText
  rw [h]
  simp only [JSVal.trim]
  split
  · exact ⟨_, rfl⟩
  · split <;> exact ⟨_, rfl⟩

theorem copyText_ok_of_str (s : State) (x : String) (b : Bool)
    (h : s.currentSentence = .str x) : ∃ s3 : State, copyText s b = .ok s3 := by
  unfold copyText
  rw [h]
  simp only [JSVal.trim]
  split
  · exact ⟨_, rfl⟩
  · split <;> exact ⟨_, rfl⟩

/-- C10, as stated, fails: in the session whose cached sentence is `AB`, a
`{success: true}` response without `sentence` leaves the cached sentence
`undefined` instead of `AB`, and then `speakText` and `copyText` raise a
TypeError at `currentSentence.trim()`. -/
theorem C10_counterexample_missing_sentence :
    (run (construct samplePage) malformedTrace).isSome = true
    ∧ (sessionAfter sampleTrace).currentSentence = JSVal.str "AB"
    ∧ (sessionAfter malformedTrace).currentSentence = JSVal.undefined
    ∧ (sessionAfter malformedTrace).currentSentence ≠ (sessionAfter sampleTrace).currentSentence
    ∧ (speakText (sessionAfter malformedTrace) true).toOption.isNone = true
    ∧ (copyText (sessionAfter malformedTrace) true).toOption.isNone = true := by
  decide!

/-- C10, amended: a response with a truthy `success` and no `sentence` is not
handled as a failure. `processSentence` stores the absent `sentence`, that is
`undefined`, as the cached sentence, shows the placeholder text and leaves the
speak control as it was; the TypeError of `trim` is caught inside, so its
caller sees no exception. The session recovers: after `clearText`, or after a
later success response that carries a string, the cached sentence is a string
again and `speakText` and `copyText` run without raising. -/
theorem C10_missing_sentence_stores_undefined (s : State) (fields : List (String × JSVal))
    (hsuccess : ((fields.lookup "success").getD .undefined).truthy = true)
    (hmissing : fields.lookup "sentence" = none) :
    ∃ s1 : State, processSentenceResume s (.resolved (.object fields)) = .ok s1
      ∧ s1.currentSentence = .undefined
      ∧ s1.sentenceText = .str sentencePlaceholder
      ∧ s1.speakDisabled = s.speakDisabled
      ∧ (clearText s1).currentSentence = .str ""
      ∧ (∀ b : Bool, speakText (clearText s1) b = .ok (clearText s1))
      ∧ (∀ b : Bool, copyText (clearText s1) b = .ok (clearText s1))
      ∧ (∀ x : String, ∃ s2 : State,
          processSentenceResume s1
            (.resolved (.object [("success", .bool true), ("sentence", .str x)])) = .ok s2
          ∧ s2.currentSentence = .str x
          ∧ (∀ b : Bool, ∃ s3 : State, speakText s2 b = .ok s3)
          ∧ (∀ b : Bool, ∃ s3 : State, copyText s2 b = .ok s3)) := by
  refine ⟨_, processSentenceResume_ok s _, ?_⟩
  rw [processSentenceTry_no_sentence _ fields hsuccess hmissing]
  have hempty : jsTrim "" = "" := by decide
  refine ⟨rfl, rfl, rfl, rfl, ?_, ?_, ?_⟩
  · intro b
    simp [speakText, clearText, showToast, JSVal.trim, hempty]
  · intro b
    simp [copyText, clearText, showToast, JSVal.trim, hempty]
  · intro x
    refine ⟨_, processSentenceResume_ok _ _, ?_, ?_, ?_⟩
    · exact processSentenceTry_currentSentence_of_truthy _ _ (.bool true) (.str x) rfl rfl rfl
    · exact fun b => speakText_ok_of_str _ x b
        (processSentenceTry_currentSentence_of_truthy _ _ (.bool true) (.str x) rfl rfl rfl)
    · exact fun b => copyText_ok_of_str _ x b
        (processSentenceTry_currentSentence_of_truthy _ _ (.bool true) (.str x) rfl rfl rfl)

/-- Witness for C10: the session whose cached sentence is `AB` receives
`{success: true}`; the cached sentence becomes `undefined`, and `clearText`
makes it the empty string. -/
theorem C10_witness_after_AB :
    ((([("success", JSVal.bool true)] : List (String × JSVal)).lookup "success").getD
        JSVal.undefined).truthy = true
    ∧ ([("success", JSVal.bool true)] : List (String × JSVal)).lookup "sentence" = none
    ∧ ∃ s1 : State,
        processSentenceResume (sessionAfter sampleTrace) responseNoSentence = .ok s1
        ∧ s1.currentSentence = JSVal.undefined
        ∧ (clearText s1).currentSentence = JSVal.str ""
        ∧ speakText (clearText s1) true = .ok (clearText s1) := by
  obtain ⟨s1, h1, h2, _, _, h3, h4, _⟩ :=
    C10_missing_sentence_stores_undefined (sessionAfter sampleTrace)
      [("success", JSVal.bool true)] rfl rfl
  exact ⟨rfl, rfl, s1, h1, h2, h3, h4 true⟩

/-! ### The speak and copy controls -/

theorem SpeakCopyInv_of_controls_eq (page : HtmlPage) (s s1 : State)
    (h : controls s1 = controls s) (hinv : SpeakCopyInv page s) : SpeakCopyInv page s1 := by
  simp only [controls, Prod.mk.injEq] at h
  obtain ⟨h1, h2, h3⟩ := h
  unfold SpeakCopyInv at *
  rw [h1, h2, h3]
  exact hinv

theorem stopDetection_controls (s : State) : controls (stopDetection s) = controls s := by
  rcases hsrc : s.srcObject with _ | stream <;> rcases htimer : s.detectionInterval with _ | h <;>
    simp [controls, stopDetection, showToast, updateStatus, updateUI, hsrc, htimer]

theorem pauseDetection_controls (s : State) : controls (pauseDetection s) = controls s := by
  rcases htimer : s.detectionInterval with _ | h <;>
    simp [controls, pauseDetection, updateStatus, htimer]

theorem resumeDetection_controls (s : State) : controls (resumeDetection s) = controls s := by
  unfold resumeDetection
  split <;> rfl

theorem onLoadedMetadata_controls (s : State) : controls (onLoadedMetadata s) = controls s :=
  rfl

theorem iterate_onLoadedMetadata_controls (n : Nat) :
    ∀ s : State, controls (Nat.iterate onLoadedMetadata n s) = controls s := by
  induction n with
  | zero => intro s; rfl
  | succ n ih =>
    intro s
    rw [Function.iterate_succ_apply, ih, onLoadedMetadata_controls]

theorem onVisibilityChange_controls (s : State) (b : Bool) :
    controls (onVisibilityChange s b) = controls s := by
  unfold onVisibilityChange
  simp only
  split
  · rw [pauseDetection_controls]; rfl
  · split
    · rw [resumeDetection_controls]; rfl
    · rfl

theorem startDetectionResume_controls (s : State) (camera : Option MediaStream) :
    controls (startDetectionResume s camera) = controls s := by
  cases camera <;> rfl

theorem updateConfidenceColor_controls (s : State) (c : ℚ) :
    controls (updateConfidenceColor s c) = controls s := by
  unfold updateConfidenceColor
  split
  · rfl
  · split <;> rfl

theorem processLetter_controls (s : State) (letter : String) (t1 t2 : Int) :
    controls (processLetter s letter t1 t2) = controls s := by
  unfold processLetter processSentence updateLettersList
  simp only
  split <;> rfl

theorem handlePrediction_controls (s : State) (letter : String) (c : ℚ) (t1 t2 : Int) :
    controls (handlePrediction s letter c t1 t2) = controls s := by
  unfold handlePrediction
  simp only [updateConfidenceColor_controls]
  split
  · rw [processLetter_controls]; rfl
  · rfl

theorem captureAndPredictResume_controls (s : State) (o : PredictOutcome) (t1 t2 : Int) :
    controls (captureAndPredictResume s o t1 t2) = controls s := by
  cases o
  · rfl
  · rfl
  · simp only [captureAndPredictResume]
    rw [handlePrediction_controls]; rfl

theorem speakText_controls (s : State) (b : Bool) :
    controls (uncaught s (speakText s b)) = controls s := by
  unfold speakText
  split
  · rfl
  · split
    · rfl
    · split <;> rfl

theorem copyText_controls (s : State) (b : Bool) :
    controls (uncaught s (copyText s b)) = controls s := by
  unfold copyText
  split
  · rfl
  · split
    · rfl
    · split <;> rfl

theorem showLoadingResume_controls (s : State) (b : Bool) :
    controls (showLoadingResume s b) = controls s := by
  cases b <;> rfl

theorem onTick_controls (s : State) (b : Bool) : controls (onTick s b) = controls s := by
  cases b <;> rfl

theorem jsTrim_empty : jsTrim "" = "" := by decide

theorem processSentenceTry_inv (page : HtmlPage) (s : State) (o : FetchOutcome)
    (hinv : SpeakCopyInv page s) : SpeakCopyInv page (processSentenceTry s o).1 := by
  cases o with
  | rejected => exact hinv
  | resolved doc =>
    cases hget : doc.get "success" with
    | error e =>
      simp only [processSentenceTry, hget]
      exact hinv
    | ok v =>
      by_cases hv : v.truthy = true
      · cases hsent : doc.get "sentence" with
        | error e =>
          simp only [processSentenceTry, hget, hv, if_true, hsent]
          exact hinv
        | ok w =>
          cases w with
          | str x =>
            simp only [processSentenceTry, hget, hv, if_true, hsent, JSVal.trim]
            refine ⟨?_, hinv.2⟩
            intro y hy
            have hxy : x = y := JSVal.str.inj hy
            subst hxy
            simp
          | undefined =>
            simp only [processSentenceTry, hget, hv, if_true, hsent, JSVal.trim]
            exact ⟨fun y hy => JSVal.noConfusion hy, hinv.2⟩
          | null =>
            simp only [processSentenceTry, hget, hv, if_true, hsent, JSVal.trim]
            exact ⟨fun y hy => JSVal.noConfusion hy, hinv.2⟩
          | bool b =>
            simp only [processSentenceTry, hget, hv, if_true, hsent, JSVal.trim]
            exact ⟨fun y hy => JSVal.noConfusion hy, hinv.2⟩
          | num q =>
            simp only [processSentenceTry, hget, hv, if_true, hsent, JSVal.trim]
            exact ⟨fun y hy => JSVal.noConfusion hy, hinv.2⟩
          | object =>
            simp only [processSentenceTry, hget, hv, if_true, hsent, JSVal.trim]
            exact ⟨fun y hy => JSVal.noConfusion hy, hinv.2⟩
      · have hf : v.truthy = false := by simpa using hv
        rw [processSentenceTry_currentSentence_of_falsy s doc v hget hf]
        exact hinv

theorem clearText_inv (page : HtmlPage) (s : State) (hinv : SpeakCopyInv page s) :
    SpeakCopyInv page (clearText s) := by
  refine ⟨?_, hinv.2⟩
  intro x hx
  have hx1 : x = "" := by
    have : JSVal.str "" = JSVal.str x := hx
    exact (JSVal.str.inj this).symm
  subst hx1
  exact ⟨fun _ => jsTrim_empty, fun _ => rfl⟩

theorem construct_inv (page : HtmlPage) (hspeak : page.speakDisabled = true) :
    SpeakCopyInv page (construct page) := by
  refine ⟨?_, rfl⟩
  intro x hx
  have hx1 : x = "" := by
    have : JSVal.str "" = JSVal.str x := hx
    exact (JSVal.str.inj this).symm
  subst hx1
  exact ⟨fun _ => jsTrim_empty, fun _ => hspeak⟩

theorem step_inv (page : HtmlPage) (s s1 : State) (e : Event)
    (hstep : step s e = some s1) (hinv : SpeakCopyInv page s) : SpeakCopyInv page s1 := by
  cases e with
  | startClick =>
    simp only [step] at hstep
    split at hstep
    · cases hstep
    · cases hstep; exact hinv
  | cameraSettled camera =>
    simp only [step] at hstep
    split at hstep
    · cases hstep
    · cases hstep
      exact SpeakCopyInv_of_controls_eq page s _ (startDetectionResume_controls s camera) hinv
  | loadedMetadata width height =>
    simp only [step] at hstep
    split at hstep
    · cases hstep
    · cases hstep
      exact SpeakCopyInv_of_controls_eq page s _
        (iterate_onLoadedMetadata_controls _ _) hinv
  | stopClick =>
    simp only [step] at hstep
    split at hstep
    · cases hstep
    · cases hstep
      exact SpeakCopyInv_of_controls_eq page s _ (stopDetection_controls s) hinv
  | clearClick =>
    simp only [step] at hstep
    cases hstep
    exact clearText_inv page s hinv
  | speakClick b =>
    simp only [step] at hstep
    split at hstep
    · cases hstep
    · cases hstep
      exact SpeakCopyInv_of_controls_eq page s _ (speakText_controls s b) hinv
  | copyClick b =>
    simp only [step] at hstep
    split at hstep
    · cases hstep
    · cases hstep
      exact SpeakCopyInv_of_controls_eq page s _ (copyText_controls s b) hinv
  | visibilityChange b =>
    simp only [step] at hstep
    split at hstep
    · cases hstep
    · cases hstep
      exact SpeakCopyInv_of_controls_eq page s _ (onVisibilityChange_controls s b) hinv
  | tick h b =>
    simp only [step] at hstep
    split at hstep
    · cases hstep
      exact SpeakCopyInv_of_controls_eq page s _ (onTick_controls s b) hinv
    · cases hstep
  | predictSettled o t1 t2 =>
    simp only [step] at hstep
    split at hstep
    · cases hstep
    · cases hstep
      exact SpeakCopyInv_of_controls_eq page s _
        (captureAndPredictResume_controls s o t1 t2) hinv
  | sentenceSettled o =>
    simp only [step] at hstep
    split at hstep
    · cases hstep
    · cases hstep
      rw [processSentenceResume_ok]
      exact processSentenceTry_inv page _ o hinv
  | probeSettled b =>
    simp only [step] at hstep
    split at hstep
    · cases hstep
      exact SpeakCopyInv_of_controls_eq page s _ (showLoadingResume_controls s b) hinv
    · cases hstep
  | loadingTimeout =>
    simp only [step] at hstep
    split at hstep
    · cases hstep
    · cases hstep; exact hinv
  | toastHide =>
    simp only [step] at hstep
    split at hstep
    · cases hstep
    · cases hstep; exact hinv

theorem run_inv (page : HtmlPage) (es : List Event) :
    ∀ s s1 : State, run s es = some s1 → SpeakCopyInv page s → SpeakCopyInv page s1 := by
  induction es with
  | nil =>
    intro s s1 h hinv
    simp only [run, Option.some.injEq] at h
    exact h ▸ hinv
  | cons e es ih =>
    intro s s1 h hinv
    simp only [run] at h
    cases hstep : step s e with
    | none => rw [hstep] at h; cases h
    | some s2 =>
      rw [hstep] at h
      exact ih s2 s1 h (step_inv page s s2 e hstep hinv)

theorem sampleTrace_from_any_page (page : HtmlPage) (hstart : page.startDisabled = false) :
    (run (construct page) sampleTrace).isSome = true
    ∧ ((run (construct page) sampleTrace).getD (construct page)).copyDisabled
        = page.copyDisabled
    ∧ ((run (construct page) sampleTrace).getD (construct page)).currentSentence
        = JSVal.str "AB" := by
  obtain ⟨a, b, c, d⟩ := page
  simp only at hstart
  subst hstart
  cases b <;> cases c <;> cases d <;> decide!

theorem reachable_of_isSome (page : HtmlPage) (es : List Event)
    (h : (run (construct page) es).isSome = true) :
    Reachable page ((run (construct page) es).getD (construct page)) := by
  refine ⟨es, ?_⟩
  cases hr : run (construct page) es with
  | none => rw [hr] at h; cases h
  | some s1 => rfl

theorem not_specControls_of_copy_disabled (s : State) (hcopy : s.copyDisabled = true)
    (hAB : s.currentSentence = JSVal.str "AB") : ¬ SpecControls s := by
  intro h
  have ht := h.2.mp hcopy
  rw [hAB] at ht
  have h1 : jsTrim "AB" = "" := by
    simpa [JSVal.trim] using ht
  exact absurd h1 (by decide)

theorem not_specControls_of_copy_enabled (s : State) (hcopy : s.copyDisabled = false)
    (hempty : s.currentSentence = JSVal.str "") : ¬ SpecControls s := by
  intro h
  have ht : s.currentSentence.trim = .ok "" := by
    rw [hempty]
    simp [JSVal.trim, jsTrim_empty]
  have := h.2.mpr ht
  rw [hcopy] at this
  cases this

/-- C5, as stated, fails. On a page whose copy control is enabled at load time,
the constructed state has an empty sentence and an enabled copy control. On a
page whose copy control is disabled at load time, the copy control is still
disabled after the sentence `AB` has been cached. After a first response
`{success: true}` without `sentence` the speak control is disabled although
`currentSentence.trim()` is not the empty string. No page with an enabled start
control satisfies the claim in all its reachable states. -/
theorem C5_counterexample_copy_control_never_updated :
    (Reachable copyEnabledPage (construct copyEnabledPage)
        ∧ ¬ SpecControls (construct copyEnabledPage))
    ∧ (Reachable samplePage (sessionAfter sampleTrace)
        ∧ (sessionAfter sampleTrace).copyDisabled = true
        ∧ (sessionAfter sampleTrace).currentSentence = JSVal.str "AB"
        ∧ ¬ SpecControls (sessionAfter sampleTrace))
    ∧ (Reachable samplePage (sessionAfter malformedFirstTrace)
        ∧ (sessionAfter malformedFirstTrace).speakDisabled = true
        ∧ (sessionAfter malformedFirstTrace).currentSentence = JSVal.undefined
        ∧ ¬ SpecControls (sessionAfter malformedFirstTrace))
    ∧ ¬ ∃ page : HtmlPage, page.startDisabled = false
          ∧ ∀ s : State, Reachable page s → SpecControls s := by
  refine ⟨⟨⟨[], rfl⟩, not_specControls_of_copy_enabled _ rfl rfl⟩, ?_, ?_, ?_⟩
  · have hAB : (sessionAfter sampleTrace).currentSentence = JSVal.str "AB" := by decide!
    have hcopy : (sessionAfter sampleTrace).copyDisabled = true := by decide!
    exact ⟨reachable_of_isSome samplePage sampleTrace (by decide!), hcopy, hAB,
      not_specControls_of_copy_disabled _ hcopy hAB⟩
  · have hU : (sessionAfter malformedFirstTrace).currentSentence = JSVal.undefined := by
      decide!
    have hspeak : (sessionAfter malformedFirstTrace).speakDisabled = true := by decide!
    refine ⟨reachable_of_isSome samplePage malformedFirstTrace (by decide!), hspeak, hU, ?_⟩
    intro h
    have ht := h.1.mp hspeak
    rw [hU] at ht
    simp [JSVal.trim] at ht
  · rintro ⟨page, hstart, hall⟩
    obtain ⟨hsome, hcopy, hAB⟩ := sampleTrace_from_any_page page hstart
    cases hc : page.copyDisabled with
    | true =>
      exact not_specControls_of_copy_disabled _ (hcopy.trans hc) hAB
        (hall _ (reachable_of_isSome page sampleTrace hsome))
    | false =>
      exact not_specControls_of_copy_enabled (construct page) hc rfl (hall _ ⟨[], rfl⟩)

/-- C5, amended: on a page whose speak control is disabled at load time, in
every state reachable by any sequence of events, whenever the cached sentence
is a string the speak control is disabled exactly when the trimmed sentence is
empty, and with an empty trimmed sentence `speakText` and `copyText` return at
once, without speaking or copying. -/
theorem C5_speak_control_follows_trimmed_sentence (page : HtmlPage)
    (hspeak : page.speakDisabled = true) (s : State) (hreach : Reachable page s) :
    (∀ x : String, s.currentSentence = .str x →
        (s.speakDisabled = true ↔ s.currentSentence.trim = .ok ""))
    ∧ (∀ (x : String) (b : Bool), s.currentSentence = .str x → jsTrim x = "" →
        speakText s b = .ok s)
    ∧ (∀ (x : String) (b : Bool), s.currentSentence = .str x → jsTrim x = "" →
        copyText s b = .ok s) := by
  obtain ⟨es, hrun⟩ := hreach
  have hinv := run_inv page es _ s hrun (construct_inv page hspeak)
  refine ⟨?_, ?_, ?_⟩
  · intro x hx
    rw [hinv.1 x hx, hx]
    simp [JSVal.trim]
  · intro x b hx hempty
    simp [speakText, hx, JSVal.trim, hempty]
  · intro x b hx hempty
    simp [copyText, hx, JSVal.trim, hempty]

/-- Witness for C5: the sample page after the sentence `AB` has been cached,
where the speak control is enabled. -/
theorem C5_witness_after_AB :
    samplePage.speakDisabled = true
    ∧ Reachable samplePage (sessionAfter sampleTrace)
    ∧ (sessionAfter sampleTrace).currentSentence = JSVal.str "AB"
    ∧ (sessionAfter sampleTrace).speakDisabled = false
    ∧ ((sessionAfter sampleTrace).speakDisabled = true ↔
        (sessionAfter sampleTrace).currentSentence.trim = .ok "") := by
  have hreach : Reachable samplePage (sessionAfter sampleTrace) :=
    reachable_of_isSome samplePage sampleTrace (by decide!)
  have hAB : (sessionAfter sampleTrace).currentSentence = JSVal.str "AB" := by decide!
  have h := C5_speak_control_follows_trimmed_sentence samplePage rfl
    (sessionAfter sampleTrace) hreach
  exact ⟨rfl, hreach, hAB, by decide!, h.1 "AB" hAB⟩

/-! ### Interval timers -/

/-- C9 on its failing inputs. After start, stop and start again, the
`loadedmetadata` event runs the listener of the first start and the listener of
the second, so `startPredictionLoop` creates two timers: both are live,
`detectionInterval` holds the second only, and `stopDetection` or
`pauseDetection` leaves the first one live. The same happens when the page is
hidden before the metadata loads and is shown again afterwards. -/
theorem C9_restart_leaves_two_live_timers :
    (run (construct samplePage) restartTrace).isSome = true
    ∧ (sessionAfter restartTrace).liveTimers = [⟨1⟩, ⟨2⟩]
    ∧ (sessionAfter restartTrace).detectionInterval = some ⟨2⟩
    ∧ orphanTimers (sessionAfter restartTrace) = [⟨1⟩]
    ∧ (stopDetection (sessionAfter restartTrace)).liveTimers = [⟨1⟩]
    ∧ (pauseDetection (sessionAfter restartTrace)).liveTimers = [⟨1⟩]
    ∧ (run (construct samplePage) hiddenStartTrace).isSome = true
    ∧ (sessionAfter hiddenStartTrace).liveTimers = [⟨0⟩, ⟨1⟩]
    ∧ (sessionAfter hiddenStartTrace).detectionInterval = some ⟨1⟩
    ∧ (stopDetection (sessionAfter hiddenStartTrace)).liveTimers = [⟨0⟩] := by
  decide

end SignLanguageDetector
